import Mathlib

/-!
Shallow embedding of the `nu_app` bootstrap-and-evaluation harness
(`src/helpers.rs`, `src/create_default_context.rs`, `src/main.rs`).

The repository is thin glue over the external nushell crates
(`nu_protocol`, `nu_parser`, `nu_engine`, `nu_command`).  Those crates are
external collaborators per the spec; their behavior is abstracted as
explicit oracle parameters (`Externals`, merge oracles) or, where the spec
pins their behavior down, as small functions modelled from the spec's words.
The control flow of `eval_source`, `create_stack`, `get_init_cwd`,
`set_last_exit_code`, `create_stdin_input` and `create_default_context`
is translated directly from the Rust source.
-/

namespace NuApp

/-- Source location.  `Span::unknown()` in `nu_protocol` is the span with
start and end both zero. -/
structure Span where
  start : Nat
  stop : Nat
deriving DecidableEq, Repr

def Span.unknown : Span := ⟨0, 0⟩

/-- The fragment of `nu_protocol::Value` this harness constructs:
`Value::int(v, span)` (used by `set_last_exit_code`) and
`Value::String { val, internal_span }` (used by `create_stack`). -/
inductive Value where
  | int (val : Int) (internal_span : Span)
  | string (val : String) (internal_span : Span)
deriving DecidableEq, Repr

/-- Overwrite-by-name insertion into an association list: the model of
inserting into a shell-style environment-variable map (the spec calls the
underlying stores overwrite-by-name). -/
def updateAssoc {α : Type} (k : String) (v : α) :
    List (String × α) → List (String × α)
  | [] => [(k, v)]
  | (k', v') :: rest =>
      if k' = k then (k, v) :: rest else (k', v') :: updateAssoc k v rest

/-- Lookup in an association list (first match; with `updateAssoc`
maintaining at most one binding per key, this is map lookup). -/
def lookupAssoc {α : Type} (k : String) : List (String × α) → Option α
  | [] => none
  | (k', v) :: rest => if k' = k then some v else lookupAssoc k rest

/-- Execution Scope (`nu_protocol::engine::Stack`): variable bindings plus a
shell-style environment-variable map.  Only the parts this harness touches
are modelled: `vars` (untouched by the harness) and `env_vars`. -/
structure Stack where
  vars : List (Nat × Value)
  env_vars : List (String × Value)
deriving DecidableEq, Repr

/-- `Stack::new()`. -/
def Stack.new : Stack := ⟨[], []⟩

/-- `Stack::add_env_var(name, value)`: insert-or-overwrite one
environment-variable binding, modelled from the spec's map description
(the real store lives in the external `nu_protocol` crate). -/
def Stack.add_env_var (s : Stack) (name : String) (v : Value) : Stack :=
  { s with env_vars := updateAssoc name v s.env_vars }

/-- `set_last_exit_code` from `src/helpers.rs` lines 14-19: store the exit
code as an integer value with unknown span under `LAST_EXIT_CODE`. -/
def set_last_exit_code (stack : Stack) (exit_code : Int) : Stack :=
  stack.add_env_var "LAST_EXIT_CODE" (Value.int exit_code Span.unknown)

/-- `get_init_cwd` from `src/helpers.rs` lines 42-48.  The three
platform queries (`std::env::current_dir()`, `std::env::var("PWD")`,
`nu_path::home_dir()`) are external; they enter as `Option` parameters
(`none` = the query failed).  `PathBuf::default()` is the empty path. -/
def get_init_cwd (current_dir : Option String) (pwd_var : Option String)
    (home_dir : Option String) : String :=
  match current_dir with
  | some c => c
  | none =>
      match pwd_var with
      | some p => p
      | none => home_dir.getD ""

/-- `create_stack` from `src/helpers.rs` lines 161-176: a fresh stack with
the single environment variable `PWD` holding the resolved initial
working directory. -/
def create_stack (current_dir : Option String) (pwd_var : Option String)
    (home_dir : Option String) : Stack :=
  Stack.new.add_env_var "PWD"
    (Value.string (get_init_cwd current_dir pwd_var home_dir) Span.unknown)

/-- Opaque compiled block id (`nu_protocol::engine::Block` is produced and
consumed by external collaborators; only its identity matters here). -/
abbrev Block : Type := Nat

/-- Opaque error payload for parse, merge, evaluation and render errors. -/
abbrev NuError : Type := Nat

/-- Opaque parse-error payload (`working_set.parse_errors` entries). -/
abbrev ParseError : Type := Nat

/-- Interpreter State (`nu_protocol::engine::EngineState`), restricted to
what the harness observes: the overwrite-by-name store of declared
commands/variables, each bound to an opaque registration id. -/
structure EngineState where
  decls : List (String × Nat)
deriving DecidableEq, Repr

/-- `EngineState::new()`. -/
def EngineState.new : EngineState := ⟨[]⟩

/-- Name lookup in the Interpreter State's decl store. -/
def EngineState.find_decl (es : EngineState) (name : String) : Option Nat :=
  lookupAssoc name es.decls

/-- Delta: the immutable bundle of newly declared (name, registration id)
pairs rendered out of a Working Set. -/
abbrev Delta : Type := List (String × Nat)

/-- The raw byte stream wrapped by `create_stdin_input`
(`RawStream::new(reader, ctrlc, span, known_size)`); the reader itself is
opaque, the cancellation flag is modelled by its current boolean value
(`some b` = a flag allocated with value `b`, `none` = no flag supplied). -/
structure RawStream where
  ctrlc : Option Bool
  span : Span
  known_size : Option Nat
deriving DecidableEq, Repr

/-- The fragment of `nu_protocol::PipelineData` the harness inspects:
either a plain value / empty signal, or an external-stream bundle.  The
deferred exit-code handle is modelled by the integer it resolves to
(`none` = no deferred exit code attached). -/
inductive PipelineData where
  | empty
  | value (v : Value) (metadata : Option Unit)
  | externalStream (stdout : Option RawStream) (stderr : Option RawStream)
      (exit_code : Option Int) (span : Span) (metadata : Option Unit)
      (trim_end_newline : Bool)
deriving DecidableEq, Repr

/-- Whether a pipeline result takes the external-stream reporting path of
`eval_source` (the `if let PipelineData::ExternalStream { .. }` test). -/
def PipelineData.isExternalStream : PipelineData → Bool
  | .externalStream _ _ _ _ _ _ => true
  | _ => false

/-- External collaborators consumed by `eval_source` (spec section 6):
the parser, the delta merge, and the two block-execution entry points
(selected by `allow_return`).  `mergeTry` returns the state after the merge
attempt together with an optional merge fault; `evalBlock` returns the
execution outcome together with the stack as execution left it (the Rust
functions mutate the stack in place).  `renderFault` is the optional I/O
error raised while printing / draining a result. -/
structure Externals where
  parse : EngineState → String → List Nat → Block × List ParseError × Delta
  mergeTry : EngineState → Delta → EngineState × Option NuError
  evalBlock : Bool → EngineState → Stack → Block → PipelineData →
    Except NuError PipelineData × Stack
  renderFault : Option NuError

/-- Result reporting, modelled from the spec (section 4.2 step 6): an
external-stream result is drained by `print_if_stream`, resolving the
deferred exit code (0 when none is attached); any other result is printed
by `PipelineData::print`, which yields exit code 0 on success.  A render
fault makes either path return the error instead. -/
def renderResult (renderFault : Option NuError) :
    PipelineData → Except NuError Int
  | .externalStream _ _ exit_code _ _ _ =>
      match renderFault with
      | some e => .error e
      | none => .ok (exit_code.getD 0)
  | _ =>
      match renderFault with
      | some e => .error e
      | none => .ok 0

/-- `eval_source` from `src/helpers.rs` lines 50-132, with the external
collaborators supplied as `ext`.  Returns the success flag together with
the Interpreter State and Execution Scope as the call leaves them. -/
def eval_source (ext : Externals) (engine_state : EngineState)
    (stack : Stack) (source : List Nat) (fname : String)
    (input : PipelineData) (allow_return : Bool) :
    Bool × EngineState × Stack :=
  let parsed := ext.parse engine_state fname source
  let block := parsed.1
  let parse_errors := parsed.2.1
  let delta := parsed.2.2
  match parse_errors with
  | _ :: _ =>
      -- a first parse error: exit code 1, report, fail; no merge, no exec
      (false, engine_state, set_last_exit_code stack 1)
  | [] =>
      let merged := ext.mergeTry engine_state delta
      match merged.2 with
      | some _ =>
          -- merge fault: exit code 1, report, fail
          (false, merged.1, set_last_exit_code stack 1)
      | none =>
          let b := ext.evalBlock allow_return merged.1 stack block input
          match b.1 with
          | .ok pipeline_data =>
              match renderResult ext.renderFault pipeline_data with
              | .error _ =>
                  -- render error: report, fail (no exit code written)
                  (false, merged.1, b.2)
              | .ok exit_code =>
                  (true, merged.1, set_last_exit_code b.2 exit_code)
          | .error _ =>
              -- execution error: exit code 1, report, fail
              (false, merged.1, set_last_exit_code b.2 1)

/-- `create_stdin_input` from `src/helpers.rs` lines 134-155: wrap standard
input as an external stream with a fresh (unset) cancellation flag, unknown
spans, no stderr stream, no deferred exit code and no metadata. -/
def create_stdin_input : PipelineData :=
  PipelineData.externalStream
    (some { ctrlc := some false, span := Span.unknown, known_size := none })
    none none Span.unknown none false

/-- Platform / feature configuration gating registration, from the `cfg`
attributes in `src/create_default_context.rs`: the `plugin` feature
(Register), `unix` (Exec), `windows` (RegistryQuery), the Ps target list
(android / linux / macos / windows) and the `which-support` feature. -/
structure BuildCfg where
  plugin : Bool
  unix : Bool
  windows : Bool
  ps_targets : Bool
  which_support : Bool
deriving DecidableEq, Repr

/-- Registration serial numbering: pair every name with its position in
iteration order, starting at `s`.  This models the Working Set assigning a
fresh id to each `add_decl` in sequence. -/
def deltaFrom (s : Nat) : List String → Delta
  | [] => []
  | n :: rest => (n, s) :: deltaFrom (s + 1) rest

/-- The bootstrap registration sequence of `create_default_context`
(`src/create_default_context.rs` lines 17-451): every `bind_command!`
entry, identified by its command type name, in source iteration order,
with the conditionally compiled entries gated by `cfg`. -/
def bootstrap_registrations (cfg : BuildCfg) : List String :=
  -- Core
  ["Alias", "Break", "Collect", "Const", "Continue", "Def", "DefEnv",
   "Describe", "Do", "Echo", "ErrorMake", "ExportAlias", "ExportCommand",
   "ExportConst", "ExportDef", "ExportDefEnv", "ExportExtern",
   "ExportExternWrapped", "ExportUse", "ExportModule", "Extern",
   "ExternWrapped", "For", "Hide", "HideEnv", "If", "Ignore", "Overlay",
   "OverlayUse", "OverlayList", "OverlayNew", "OverlayHide", "LazyMake",
   "Let", "Loop", "Match", "Module", "Mut", "Return", "Scope",
   "ScopeAliases", "ScopeCommands", "ScopeEngineStats", "ScopeExterns",
   "ScopeModules", "ScopeVariables", "Try", "Use", "Version", "While"]
  ++ (if cfg.plugin then ["Register"] else [])
  -- Charts
  ++ ["Histogram"]
  -- Filters
  ++ ["All", "Any", "Append", "Columns", "Compact", "Default", "Drop",
      "DropColumn", "DropNth", "Each", "Empty", "Enumerate", "Every",
      "Filter", "Find", "First", "Flatten", "Get", "Group", "GroupBy",
      "Headers", "Insert", "Items", "Join", "SplitBy", "Take", "Merge",
      "Move", "TakeWhile", "TakeUntil", "Last", "Length", "Lines",
      "ParEach", "Prepend", "Range", "Reduce", "Reject", "Rename",
      "Reverse", "Select", "Shuffle", "Skip", "SkipUntil", "SkipWhile",
      "Sort", "SortBy", "SplitList", "Transpose", "Uniq", "UniqBy",
      "Upsert", "Update", "Values", "Where", "Window", "Wrap", "Zip"]
  -- Misc
  ++ ["Source", "Tutor"]
  -- Path
  ++ ["Path", "PathBasename", "PathDirname", "PathExists", "PathExpand",
      "PathJoin", "PathParse", "PathRelativeTo", "PathSplit", "PathType"]
  -- System
  ++ ["Complete", "External", "NuCheck", "Sys"]
  -- Help
  ++ ["Help", "HelpAliases", "HelpExterns", "HelpCommands", "HelpModules",
      "HelpOperators", "HelpEscapes"]
  -- Debug
  ++ ["Ast", "Debug", "DebugInfo", "Explain", "Inspect", "Metadata",
      "Profile", "TimeIt", "View", "ViewFiles", "ViewSource", "ViewSpan"]
  ++ (if cfg.unix then ["Exec"] else [])
  ++ (if cfg.windows then ["RegistryQuery"] else [])
  ++ (if cfg.ps_targets then ["Ps"] else [])
  ++ (if cfg.which_support then ["Which"] else [])
  -- Strings
  ++ ["Char", "Decode", "Encode", "DecodeBase64", "EncodeBase64",
      "DetectColumns", "Parse", "Size", "Split", "SplitChars",
      "SplitColumn", "SplitRow", "SplitWords", "Str", "StrCapitalize",
      "StrContains", "StrDistance", "StrDowncase", "StrEndswith",
      "StrExpand", "StrJoin", "StrReplace", "StrIndexOf", "StrLength",
      "StrReverse", "StrStartsWith", "StrSubstring", "StrTrim",
      "StrUpcase", "FormatDate", "FormatDuration", "FormatFilesize"]
  -- FileSystem
  ++ ["Cd", "Ls", "Mkdir", "Mv", "Cp", "UCp", "Open", "Start", "Rm",
      "Save", "Touch", "Glob", "Watch"]
  -- Platform
  ++ ["Ansi", "AnsiStrip", "Clear", "Du", "Input", "InputList",
      "InputListen", "Kill", "Sleep", "TermSize"]
  -- Date
  ++ ["Date", "DateHumanize", "DateListTimezones", "DateNow",
      "DateToRecord", "DateToTable", "DateToTimezone"]
  -- Shells
  ++ ["Exit"]
  -- Formats
  ++ ["From", "FromCsv", "FromJson", "FromNuon", "FromOds", "FromSsv",
      "FromToml", "FromTsv", "FromXlsx", "FromXml", "FromYaml", "FromYml",
      "To", "ToCsv", "ToJson", "ToMd", "ToNuon", "ToText", "ToToml",
      "ToTsv", "Touch", "Upsert", "Where", "ToXml", "ToYaml"]
  -- Viewers
  ++ ["Griddle", "Table"]
  -- Conversions
  ++ ["Fill", "Into", "IntoBool", "IntoBinary", "IntoDatetime",
      "IntoDuration", "IntoFloat", "IntoFilesize", "IntoInt",
      "IntoRecord", "IntoString", "IntoValue"]
  -- Env
  ++ ["ExportEnv", "LoadEnv", "SourceEnv", "WithEnv", "ConfigNu",
      "ConfigEnv", "ConfigMeta", "ConfigReset"]
  -- Math
  ++ ["Math", "MathAbs", "MathAvg", "MathCeil", "MathFloor", "MathMax",
      "MathMedian", "MathMin", "MathMode", "MathProduct", "MathRound",
      "MathSqrt", "MathStddev", "MathSum", "MathVariance", "MathLog"]
  -- Bytes
  ++ ["Bytes", "BytesLen", "BytesStartsWith", "BytesEndsWith",
      "BytesReverse", "BytesReplace", "BytesAdd", "BytesAt",
      "BytesIndexOf", "BytesCollect", "BytesRemove", "BytesBuild"]
  -- Network
  ++ ["Http", "HttpDelete", "HttpGet", "HttpHead", "HttpPatch",
      "HttpPost", "HttpPut", "HttpOptions", "Url", "UrlBuildQuery",
      "UrlDecode", "UrlEncode", "UrlJoin", "UrlParse", "Port"]
  -- Random
  ++ ["Random", "RandomBool", "RandomChars", "RandomDice", "RandomFloat",
      "RandomInt", "RandomInteger", "RandomUuid"]
  -- Generators
  ++ ["Cal", "Seq", "SeqDate", "SeqChar", "Unfold"]
  -- Hash
  ++ ["Hash", "HashMd5", "HashSha256"]
  -- Experimental
  ++ ["IsAdmin"]
  -- Removed
  ++ ["LetEnv", "DateFormat"]

/-- The Delta rendered by the bootstrap Working Set: each registered name
paired with its registration serial (its position in iteration order). -/
def deltaOf (regs : List String) : Delta :=
  deltaFrom 0 regs

/-- Delta merge, modelled from the spec: insert every newly declared name
into the Interpreter State's overwrite-by-name store, in delta order (the
real merge lives in the external `nu_protocol` crate). -/
def merge_delta_spec (es : EngineState) (delta : Delta) : EngineState :=
  ⟨delta.foldl (fun acc p => updateAssoc p.1 p.2 acc) es.decls⟩

/-- `create_default_context` from `src/create_default_context.rs`:
build the bootstrap delta, attempt to merge it, report a merge failure to
diagnostic output, and return the engine state as the attempt left it in
either case.  `mergeTry` abstracts the external `merge_delta`, returning
the possibly partially populated state plus an optional fault. -/
def create_default_context (cfg : BuildCfg)
    (mergeTry : EngineState → Delta → EngineState × Option NuError) :
    EngineState :=
  let engine_state := EngineState.new
  let delta := deltaOf (bootstrap_registrations cfg)
  let merged := mergeTry engine_state delta
  -- on `merged.2 = some err` the failure is printed to stderr; either way
  -- the state of the merge attempt is returned
  merged.1

/-- The fault-free run of the bootstrap, using the spec-modelled merge. -/
def create_default_context_run (cfg : BuildCfg) : EngineState :=
  create_default_context cfg (fun es d => (merge_delta_spec es d, none))

/-- The set of command names registered in an Interpreter State. -/
def EngineState.commandNames (es : EngineState) : List String :=
  es.decls.map Prod.fst

/-- The id of the LAST binding of `k` in a delta (the latest registration
of that name in iteration order). -/
def lastFind (k : String) : List (String × Nat) → Option Nat
  | [] => none
  | (k', v) :: rest =>
      match lastFind k rest with
      | some w => some w
      | none => if k' = k then some v else none

/-- A sample build configuration (a Linux build with no optional
features), used to exercise the bootstrap theorems on concrete input. -/
def cfgLinux : BuildCfg :=
  { plugin := false, unix := true, windows := false,
    ps_targets := true, which_support := false }

/-- Sample collaborators whose parse reports one parse error. -/
def extParseError : Externals where
  parse := fun _ _ _ => (0, [7], [])
  mergeTry := fun es _ => (es, none)
  evalBlock := fun _ _ st _ _ => (Except.ok PipelineData.empty, st)
  renderFault := none

/-- Sample collaborators that succeed end to end with an external-stream
result whose deferred exit code resolves to 7. -/
def extStream : Externals where
  parse := fun _ _ _ => (0, [], [])
  mergeTry := fun es _ => (es, none)
  evalBlock := fun _ _ st _ _ =>
    (Except.ok (PipelineData.externalStream none none (some 7)
      Span.unknown none false), st)
  renderFault := none

/-- Sample collaborators whose block execution fails. -/
def extEvalError : Externals where
  parse := fun _ _ _ => (0, [], [])
  mergeTry := fun es _ => (es, none)
  evalBlock := fun _ _ st _ _ => (Except.error 3, st)
  renderFault := none

/-- Sample collaborators where execution succeeds and rendering fails. -/
def extRenderFault : Externals where
  parse := fun _ _ _ => (0, [], [])
  mergeTry := fun es _ => (es, none)
  evalBlock := fun _ _ st _ _ => (Except.ok PipelineData.empty, st)
  renderFault := some 4

/-- Sample collaborators where block execution mutates the scope (adds an
environment variable, as evaluated blocks may) before rendering fails. -/
def extRenderFaultMutate : Externals where
  parse := fun _ _ _ => (0, [], [])
  mergeTry := fun es _ => (es, none)
  evalBlock := fun _ _ st _ _ =>
    (Except.ok (PipelineData.value (Value.int 5 Span.unknown) none),
     st.add_env_var "X" (Value.int 9 Span.unknown))
  renderFault := some 2

/-- Sample bootstrap merge oracle that always faults. -/
def mergeFail : EngineState → Delta → EngineState × Option NuError :=
  fun es _ => (es, some 9)

/-- Sample collaborators whose per-evaluation delta merge faults. -/
def extMergeFail : Externals where
  parse := fun _ _ _ => (0, [], [])
  mergeTry := fun es _ => (es, some 9)
  evalBlock := fun _ _ st _ _ => (Except.ok PipelineData.empty, st)
  renderFault := none

/-!  Helper lemmas on the association-list store. -/

theorem lookupAssoc_updateAssoc {α : Type} (k k' : String) (v : α)
    (l : List (String × α)) :
    lookupAssoc k (updateAssoc k' v l) =
      if k' = k then some v else lookupAssoc k l := by
  induction l with
  | nil => simp [updateAssoc, lookupAssoc]
  | cons hd tl ih =>
      obtain ⟨a, b⟩ := hd
      by_cases h₁ : a = k'
      · subst h₁
        by_cases h₂ : a = k <;>
          simp [updateAssoc, lookupAssoc, h₂]
      · by_cases h₂ : a = k
        · subst h₂
          have h₃ : ¬ k' = a := fun hh => h₁ hh.symm
          simp [updateAssoc, lookupAssoc, h₁, h₃]
        · simp [updateAssoc, lookupAssoc, h₁, h₂, ih]

theorem length_updateAssoc {α : Type} (k : String) (v : α)
    (l : List (String × α)) :
    (updateAssoc k v l).length = l.length ∨
      (updateAssoc k v l).length = l.length + 1 := by
  induction l with
  | nil => right; rfl
  | cons hd tl ih =>
      obtain ⟨a, b⟩ := hd
      by_cases h : a = k
      · left; simp [updateAssoc, h]
      · rcases ih with h' | h'
        · left; simp [updateAssoc, h, h']
        · right; simp [updateAssoc, h, h']

theorem lookupAssoc_foldl_updateAssoc (k : String) :
    ∀ (d : List (String × Nat)) (acc : List (String × Nat)),
    lookupAssoc k (d.foldl (fun a p => updateAssoc p.1 p.2 a) acc) =
      match lastFind k d with
      | some w => some w
      | none => lookupAssoc k acc := by
  intro d
  induction d with
  | nil => intro acc; simp [lastFind]
  | cons hd tl ih =>
      intro acc
      obtain ⟨a, b⟩ := hd
      rw [List.foldl_cons, ih]
      cases hfind : lastFind k tl with
      | some w => simp [lastFind, hfind]
      | none =>
          rw [lookupAssoc_updateAssoc]
          by_cases h : a = k <;> simp [lastFind, hfind, h]

/-- Merging a delta into a state resolves a name to its LAST binding in
the delta, falling back to the base state's binding. -/
theorem find_decl_merge_delta_spec (es : EngineState) (delta : Delta)
    (name : String) :
    (merge_delta_spec es delta).find_decl name =
      match lastFind name delta with
      | some w => some w
      | none => es.find_decl name := by
  show lookupAssoc name
      (delta.foldl (fun acc p => updateAssoc p.1 p.2 acc) es.decls) = _
  rw [lookupAssoc_foldl_updateAssoc]
  cases lastFind name delta <;> rfl

/-- Name lookup after the fault-free bootstrap resolves to the LAST
registration of that name in iteration order. -/
theorem find_decl_run_eq_lastFind (cfg : BuildCfg) (name : String) :
    (create_default_context_run cfg).find_decl name =
      lastFind name (deltaOf (bootstrap_registrations cfg)) := by
  have he : create_default_context_run cfg =
      merge_delta_spec EngineState.new
        (deltaOf (bootstrap_registrations cfg)) := rfl
  rw [he, find_decl_merge_delta_spec]
  cases lastFind name (deltaOf (bootstrap_registrations cfg)) <;> rfl

/-- A delta segment holding no binding of `k` registers `k` nowhere. -/
theorem lastFind_deltaFrom_none (k : String) :
    ∀ (l : List String) (s : Nat),
    lastFind k (deltaFrom s l) = none →
      ∀ m, l.get? m ≠ some k := by
  intro l
  induction l with
  | nil => intro s _ m; simp
  | cons a tl ih =>
      intro s hnone m
      have hsplit : lastFind k (deltaFrom (s + 1) tl) = none ∧ ¬ a = k := by
        cases hfind : lastFind k (deltaFrom (s + 1) tl) with
        | some w => simp [deltaFrom, lastFind, hfind] at hnone
        | none =>
            refine ⟨rfl, ?_⟩
            intro hak
            simp [deltaFrom, lastFind, hfind, hak] at hnone
      cases m with
      | zero =>
          simp only [List.get?_cons_zero]
          intro hc
          exact hsplit.2 (Option.some.inj hc)
      | succ m' =>
          simp only [List.get?_cons_succ]
          exact ih (s + 1) hsplit.1 m'

/-- The id resolved from a delta segment is the position of the LAST
occurrence of the name: the name sits at that position and does not occur
at any later position. -/
theorem lastFind_deltaFrom_pos (k : String) :
    ∀ (l : List String) (s j : Nat),
    lastFind k (deltaFrom s l) = some j →
      s ≤ j ∧ l.get? (j - s) = some k ∧
        ∀ m, j - s < m → l.get? m ≠ some k := by
  intro l
  induction l with
  | nil => intro s j h; simp [deltaFrom, lastFind] at h
  | cons a tl ih =>
      intro s j h
      cases hfind : lastFind k (deltaFrom (s + 1) tl) with
      | some w =>
          have hj : j = w := by
            simp [deltaFrom, lastFind, hfind] at h
            omega
          subst hj
          obtain ⟨hle, hget, hafter⟩ := ih (s + 1) j hfind
          refine ⟨Nat.le_of_succ_le hle, ?_, ?_⟩
          · have hsub : j - s = (j - (s + 1)) + 1 := by omega
            rw [hsub]
            simpa using hget
          · intro m hm
            obtain ⟨m', rfl⟩ : ∃ m', m = m' + 1 := ⟨m - 1, by omega⟩
            simp only [List.get?_cons_succ]
            exact hafter m' (by omega)
      | none =>
          have hak : a = k := by
            by_cases hak : a = k
            · exact hak
            · simp [deltaFrom, lastFind, hfind, hak] at h
          have hj : j = s := by
            simp [deltaFrom, lastFind, hfind, hak] at h
            omega
          refine ⟨by omega, ?_, ?_⟩
          · have hz : j - s = 0 := by omega
            rw [hz]
            simp [hak]
          · intro m hm
            obtain ⟨m', rfl⟩ : ∃ m', m = m' + 1 := ⟨m - 1, by omega⟩
            simp only [List.get?_cons_succ]
            exact lastFind_deltaFrom_none k tl (s + 1) hfind m'

/-- Storing an exit code makes `LAST_EXIT_CODE` resolve to that code. -/
theorem lookup_set_last_exit_code (stack : Stack) (code : Int) :
    lookupAssoc "LAST_EXIT_CODE" (set_last_exit_code stack code).env_vars =
      some (Value.int code Span.unknown) := by
  show lookupAssoc "LAST_EXIT_CODE"
      (updateAssoc "LAST_EXIT_CODE" (Value.int code Span.unknown)
        stack.env_vars) = _
  rw [lookupAssoc_updateAssoc, if_pos rfl]

/-!  Claim theorems. -/

/-- C4: `create_stack` always produces a scope seeded with exactly one
environment variable, `PWD`, whose string value is resolved by trying, in
strict order, the current directory, the `PWD` environment variable, the
home directory and finally the empty path; the chain always produces some
string, and a later step is consulted only when every earlier step
failed. -/
theorem create_stack_seeds_pwd (cur pwd home : Option String) :
    (create_stack cur pwd home).env_vars =
      [("PWD", Value.string (get_init_cwd cur pwd home) Span.unknown)] ∧
    (create_stack cur pwd home).vars = [] ∧
    (∀ c, cur = some c → get_init_cwd cur pwd home = c) ∧
    (∀ p, cur = none → pwd = some p → get_init_cwd cur pwd home = p) ∧
    (∀ h, cur = none → pwd = none → home = some h →
      get_init_cwd cur pwd home = h) ∧
    (cur = none → pwd = none → home = none →
      get_init_cwd cur pwd home = "") := by
  refine ⟨rfl, rfl, ?_, ?_, ?_, ?_⟩
  · intro c hc; subst hc; rfl
  · intro p hc hp; subst hc; subst hp; rfl
  · intro h hc hp hh; subst hc; subst hp; subst hh; rfl
  · intro hc hp hh; subst hc; subst hp; subst hh; rfl

/-- Witness for C4: the four steps of the fallback chain on concrete
inputs, each discharged through the theorem. -/
theorem create_stack_seeds_pwd_witness :
    get_init_cwd (some "/work") (some "/env") (some "/home") = "/work" ∧
    get_init_cwd none (some "/env") (some "/home") = "/env" ∧
    get_init_cwd none none (some "/home") = "/home" ∧
    get_init_cwd none none none = "" ∧
    (create_stack none none none).env_vars =
      [("PWD", Value.string "" Span.unknown)] :=
  ⟨(create_stack_seeds_pwd (some "/work") (some "/env")
      (some "/home")).2.2.1 "/work" rfl,
   (create_stack_seeds_pwd none (some "/env")
      (some "/home")).2.2.2.1 "/env" rfl rfl,
   (create_stack_seeds_pwd none none
      (some "/home")).2.2.2.2.1 "/home" rfl rfl rfl,
   (create_stack_seeds_pwd none none none).2.2.2.2.2 rfl rfl rfl,
   (create_stack_seeds_pwd none none none).1⟩

/-- C9: for every stack and every exit code, `set_last_exit_code` adds or
overwrites exactly one environment entry — `LAST_EXIT_CODE`, bound to the
exit code as an integer value with unknown span — and leaves every other
environment variable and every variable binding unchanged. -/
theorem set_last_exit_code_frame (stack : Stack) (code : Int) :
    lookupAssoc "LAST_EXIT_CODE" (set_last_exit_code stack code).env_vars =
      some (Value.int code Span.unknown) ∧
    (∀ k, k ≠ "LAST_EXIT_CODE" →
      lookupAssoc k (set_last_exit_code stack code).env_vars =
        lookupAssoc k stack.env_vars) ∧
    (set_last_exit_code stack code).vars = stack.vars ∧
    ((set_last_exit_code stack code).env_vars.length =
        stack.env_vars.length ∨
      (set_last_exit_code stack code).env_vars.length =
        stack.env_vars.length + 1) := by
  refine ⟨lookup_set_last_exit_code stack code, ?_, rfl, ?_⟩
  · intro k hk
    show lookupAssoc k
        (updateAssoc "LAST_EXIT_CODE" (Value.int code Span.unknown)
          stack.env_vars) = _
    rw [lookupAssoc_updateAssoc, if_neg (Ne.symm hk)]
  · exact length_updateAssoc _ _ _

/-- Witness for C9: on a concrete stack with a `PWD` entry, the exit code
is stored and the `PWD` entry survives unchanged. -/
theorem set_last_exit_code_frame_witness :
    lookupAssoc "LAST_EXIT_CODE"
      (set_last_exit_code (create_stack (some "/work") none none) 0).env_vars =
      some (Value.int 0 Span.unknown) ∧
    lookupAssoc "PWD"
      (set_last_exit_code (create_stack (some "/work") none none) 0).env_vars =
      lookupAssoc "PWD" (create_stack (some "/work") none none).env_vars :=
  ⟨(set_last_exit_code_frame (create_stack (some "/work") none none) 0).1,
   (set_last_exit_code_frame (create_stack (some "/work") none none) 0).2.1
      "PWD" (by decide)⟩

/-- C7: `create_stdin_input` always succeeds and returns an
external-stream `PipelineData` whose cancellation flag is a fresh unset
boolean, with unknown spans, no metadata, no stderr stream and no deferred
exit code. -/
theorem create_stdin_input_shape :
    create_stdin_input.isExternalStream = true ∧
    (∀ so se ec sp md te,
      create_stdin_input =
        PipelineData.externalStream so se ec sp md te →
      so = some { ctrlc := some false, span := Span.unknown,
                  known_size := none } ∧
      se = none ∧ ec = none ∧ sp = Span.unknown ∧ md = none ∧
      te = false) := by
  refine ⟨rfl, ?_⟩
  intro so se ec sp md te h
  injection h with h1 h2 h3 h4 h5 h6
  exact ⟨h1.symm, h2.symm, h3.symm, h4.symm, h5.symm, h6.symm⟩

/-- Witness for C7: the field facts instantiated on the stream the
constructor actually builds. -/
theorem create_stdin_input_shape_witness :
    create_stdin_input.isExternalStream = true ∧
    ((some { ctrlc := some false, span := Span.unknown,
             known_size := none } : Option RawStream) =
        some { ctrlc := some false, span := Span.unknown,
               known_size := none } ∧
     (none : Option RawStream) = none ∧ (none : Option Int) = none ∧
     Span.unknown = Span.unknown ∧ (none : Option Unit) = none ∧
     false = false) :=
  ⟨create_stdin_input_shape.1,
   create_stdin_input_shape.2 _ _ _ _ _ _ rfl⟩

/-- C8: two invocations of the bootstrap under identical platform and
feature configuration produce Interpreter States with the same set of
registered command names. -/
theorem bootstrap_names_deterministic (cfg₁ cfg₂ : BuildCfg)
    (h : cfg₁ = cfg₂) :
    (create_default_context_run cfg₁).commandNames =
      (create_default_context_run cfg₂).commandNames := by
  rw [h]

/-- Witness for C8: the two runs on the sample configuration agree. -/
theorem bootstrap_names_deterministic_witness :
    (create_default_context_run cfgLinux).commandNames =
      (create_default_context_run cfgLinux).commandNames :=
  bootstrap_names_deterministic cfgLinux cfgLinux rfl

/-- C1: for every source whose parse yields one or more parse errors,
`eval_source` sets the scope's `LAST_EXIT_CODE` entry to 1, returns
failure, and neither merges the Working Set's delta nor executes any
block: the Interpreter State after the call equals the state before. -/
theorem eval_source_parse_error_aborts (ext : Externals)
    (es : EngineState) (stack : Stack) (src : List Nat) (fname : String)
    (input : PipelineData) (ar : Bool)
    (h : (ext.parse es fname src).2.1 ≠ []) :
    eval_source ext es stack src fname input ar =
      (false, es, set_last_exit_code stack 1) ∧
    (eval_source ext es stack src fname input ar).2.1.decls = es.decls ∧
    lookupAssoc "LAST_EXIT_CODE"
      (eval_source ext es stack src fname input ar).2.2.env_vars =
      some (Value.int 1 Span.unknown) := by
  have hmain : eval_source ext es stack src fname input ar =
      (false, es, set_last_exit_code stack 1) := by
    cases hp : (ext.parse es fname src).2.1 with
    | nil => exact absurd hp h
    | cons e rest => simp [eval_source, hp]
  refine ⟨hmain, by rw [hmain], ?_⟩
  rw [hmain]
  exact lookup_set_last_exit_code stack 1

/-- Witness for C1: collaborators reporting one parse error on a concrete
call leave the Interpreter State as it was, store exit code 1, fail. -/
theorem eval_source_parse_error_aborts_witness :
    eval_source extParseError EngineState.new Stack.new [108]
        "application" PipelineData.empty true =
      (false, EngineState.new, set_last_exit_code Stack.new 1) ∧
    lookupAssoc "LAST_EXIT_CODE"
      (eval_source extParseError EngineState.new Stack.new [108]
        "application" PipelineData.empty true).2.2.env_vars =
      some (Value.int 1 Span.unknown) :=
  ⟨(eval_source_parse_error_aborts extParseError EngineState.new Stack.new
      [108] "application" PipelineData.empty true (by decide)).1,
   (eval_source_parse_error_aborts extParseError EngineState.new Stack.new
      [108] "application" PipelineData.empty true (by decide)).2.2⟩

/-- C3: when execution and rendering both succeed, `eval_source` writes
the resolved exit code into `LAST_EXIT_CODE` and returns success; a plain
(non-stream) final value renders exit code 0; when block execution itself
fails, `eval_source` stores 1 and returns failure. -/
theorem eval_source_exit_code_propagation (ext : Externals)
    (es es₁ : EngineState) (stack s' : Stack) (src : List Nat)
    (fname : String) (input : PipelineData) (ar : Bool)
    (hparse : (ext.parse es fname src).2.1 = [])
    (hmerge : ext.mergeTry es (ext.parse es fname src).2.2 = (es₁, none)) :
    (∀ pd c,
      ext.evalBlock ar es₁ stack (ext.parse es fname src).1 input =
        (Except.ok pd, s') →
      renderResult ext.renderFault pd = Except.ok c →
      eval_source ext es stack src fname input ar =
        (true, es₁, set_last_exit_code s' c) ∧
      lookupAssoc "LAST_EXIT_CODE"
        (eval_source ext es stack src fname input ar).2.2.env_vars =
        some (Value.int c Span.unknown)) ∧
    (∀ pd, pd.isExternalStream = false → ext.renderFault = none →
      renderResult ext.renderFault pd = Except.ok 0) ∧
    (∀ e,
      ext.evalBlock ar es₁ stack (ext.parse es fname src).1 input =
        (Except.error e, s') →
      eval_source ext es stack src fname input ar =
        (false, es₁, set_last_exit_code s' 1) ∧
      lookupAssoc "LAST_EXIT_CODE"
        (eval_source ext es stack src fname input ar).2.2.env_vars =
        some (Value.int 1 Span.unknown)) := by
  refine ⟨?_, ?_, ?_⟩
  · intro pd c heval hrender
    have hmain : eval_source ext es stack src fname input ar =
        (true, es₁, set_last_exit_code s' c) := by
      simp [eval_source, hparse, hmerge, heval, hrender]
    refine ⟨hmain, ?_⟩
    rw [hmain]
    exact lookup_set_last_exit_code s' c
  · intro pd hpd hrf
    cases pd with
    | empty => simp [renderResult, hrf]
    | value v md => simp [renderResult, hrf]
    | externalStream a b cx d e f =>
        simp [PipelineData.isExternalStream] at hpd
  · intro e heval
    have hmain : eval_source ext es stack src fname input ar =
        (false, es₁, set_last_exit_code s' 1) := by
      simp [eval_source, hparse, hmerge, heval]
    refine ⟨hmain, ?_⟩
    rw [hmain]
    exact lookup_set_last_exit_code s' 1

/-- Witness for C3: a run whose deferred exit code resolves to 7 stores 7
and succeeds; a run whose block execution fails stores 1 and fails. -/
theorem eval_source_exit_code_propagation_witness :
    eval_source extStream EngineState.new Stack.new [] "application"
        PipelineData.empty true =
      (true, EngineState.new, set_last_exit_code Stack.new 7) ∧
    renderResult none (PipelineData.value (Value.int 5 Span.unknown) none) =
      Except.ok 0 ∧
    eval_source extEvalError EngineState.new Stack.new [] "application"
        PipelineData.empty true =
      (false, EngineState.new, set_last_exit_code Stack.new 1) :=
  ⟨((eval_source_exit_code_propagation extStream EngineState.new
      EngineState.new Stack.new Stack.new [] "application"
      PipelineData.empty true rfl rfl).1
      (PipelineData.externalStream none none (some 7) Span.unknown none
        false) 7 rfl rfl).1,
   (eval_source_exit_code_propagation extStream EngineState.new
      EngineState.new Stack.new Stack.new [] "application"
      PipelineData.empty true rfl rfl).2.1
      (PipelineData.value (Value.int 5 Span.unknown) none) rfl rfl,
   ((eval_source_exit_code_propagation extEvalError EngineState.new
      EngineState.new Stack.new Stack.new [] "application"
      PipelineData.empty true rfl rfl).2.2 3 rfl).1⟩

/-- C2 counterexample: a concrete evaluation in which block execution
succeeds and rendering fails returns failure WITHOUT setting
`LAST_EXIT_CODE` to 1 — the entry is simply absent afterwards, refuting
the claim that this branch stores exit code 1. -/
theorem eval_source_render_error_no_exit_code_cex :
    (eval_source extRenderFault EngineState.new Stack.new []
      "application" PipelineData.empty true).1 = false ∧
    lookupAssoc "LAST_EXIT_CODE"
      (eval_source extRenderFault EngineState.new Stack.new []
        "application" PipelineData.empty true).2.2.env_vars ≠
      some (Value.int 1 Span.unknown) := by
  constructor
  · rfl
  · intro h
    simp [eval_source, extRenderFault, renderResult, lookupAssoc] at h

/-- C2 (amended): when block execution succeeds but rendering the result
fails, `eval_source` reports the error and returns failure, leaving the
scope exactly as block execution produced it: no exit code is written in
this branch. -/
theorem eval_source_render_error_reports_and_fails (ext : Externals)
    (es es₁ : EngineState) (stack s' : Stack) (src : List Nat)
    (fname : String) (input : PipelineData) (ar : Bool)
    (pd : PipelineData) (e : NuError)
    (hparse : (ext.parse es fname src).2.1 = [])
    (hmerge : ext.mergeTry es (ext.parse es fname src).2.2 = (es₁, none))
    (heval : ext.evalBlock ar es₁ stack (ext.parse es fname src).1 input =
      (Except.ok pd, s'))
    (hrender : renderResult ext.renderFault pd = Except.error e) :
    eval_source ext es stack src fname input ar = (false, es₁, s') := by
  simp [eval_source, hparse, hmerge, heval, hrender]

/-- Witness for C2 (amended): rendering fails on a concrete run and the
call returns failure with the scope untouched. -/
theorem eval_source_render_error_reports_and_fails_witness :
    eval_source extRenderFault EngineState.new Stack.new []
        "application" PipelineData.empty true =
      (false, EngineState.new, Stack.new) :=
  eval_source_render_error_reports_and_fails extRenderFault
    EngineState.new EngineState.new Stack.new Stack.new [] "application"
    PipelineData.empty true PipelineData.empty 4 rfl rfl rfl rfl

/-- C10 counterexample: a concrete evaluation in the render-error branch
whose block execution mutated the scope before rendering failed: the call
returns failure, yet the returned stack differs from the stack before the
call — refuting the claim that the stack is left exactly as it was before
the call. -/
theorem eval_source_render_error_mutated_stack_cex :
    (eval_source extRenderFaultMutate EngineState.new Stack.new []
      "application" PipelineData.empty true).1 = false ∧
    (eval_source extRenderFaultMutate EngineState.new Stack.new []
      "application" PipelineData.empty true).2.2 ≠ Stack.new := by
  constructor
  · rfl
  · decide

/-- C10 (amended): in the branch where block execution succeeds but
rendering the result fails, `eval_source` returns failure and performs no
write of its own to the Execution Scope: the returned stack is exactly the
stack block execution produced — in particular `LAST_EXIT_CODE` holds
whatever execution left there — though that stack may differ from the one
before the call, since block execution may have mutated it. -/
theorem eval_source_render_error_no_own_write (ext : Externals)
    (es es₁ : EngineState) (stack s' : Stack) (src : List Nat)
    (fname : String) (input : PipelineData) (ar : Bool)
    (pd : PipelineData) (e : NuError)
    (hparse : (ext.parse es fname src).2.1 = [])
    (hmerge : ext.mergeTry es (ext.parse es fname src).2.2 = (es₁, none))
    (heval : ext.evalBlock ar es₁ stack (ext.parse es fname src).1 input =
      (Except.ok pd, s'))
    (hrender : renderResult ext.renderFault pd = Except.error e) :
    (eval_source ext es stack src fname input ar).2.2 = s' ∧
    (eval_source ext es stack src fname input ar).1 = false ∧
    lookupAssoc "LAST_EXIT_CODE"
      (eval_source ext es stack src fname input ar).2.2.env_vars =
      lookupAssoc "LAST_EXIT_CODE" s'.env_vars := by
  have hmain : eval_source ext es stack src fname input ar =
      (false, es₁, s') := by
    simp [eval_source, hparse, hmerge, heval, hrender]
  exact ⟨by rw [hmain], by rw [hmain], by rw [hmain]⟩

/-- Witness for C10 (amended): on the mutating run, the returned stack is
exactly the mutated one block execution produced. -/
theorem eval_source_render_error_no_own_write_witness :
    (eval_source extRenderFaultMutate EngineState.new Stack.new []
      "application" PipelineData.empty true).2.2 =
      Stack.new.add_env_var "X" (Value.int 9 Span.unknown) ∧
    (eval_source extRenderFaultMutate EngineState.new Stack.new []
      "application" PipelineData.empty true).1 = false ∧
    lookupAssoc "LAST_EXIT_CODE"
      (eval_source extRenderFaultMutate EngineState.new Stack.new []
        "application" PipelineData.empty true).2.2.env_vars =
      lookupAssoc "LAST_EXIT_CODE"
        (Stack.new.add_env_var "X" (Value.int 9 Span.unknown)).env_vars :=
  eval_source_render_error_no_own_write extRenderFaultMutate
    EngineState.new EngineState.new Stack.new
    (Stack.new.add_env_var "X" (Value.int 9 Span.unknown)) []
    "application" PipelineData.empty true
    (PipelineData.value (Value.int 5 Span.unknown) none) 2 rfl rfl rfl rfl

/-- A registered name has a first registration. -/
theorem lookupAssoc_deltaFrom_isSome (k : String) :
    ∀ (l : List String) (s : Nat), k ∈ l →
      (lookupAssoc k (deltaFrom s l)).isSome := by
  intro l
  induction l with
  | nil => intro s h; cases h
  | cons a tl ih =>
      intro s h
      by_cases hak : a = k
      · simp [deltaFrom, lookupAssoc, hak]
      · have hmem : k ∈ tl := by
          rcases List.mem_cons.mp h with h' | h'
          · exact absurd h'.symm hak
          · exact h'
        simpa [deltaFrom, lookupAssoc, hak] using ih (s + 1) hmem

/-- A registered name has a last registration. -/
theorem lastFind_deltaFrom_isSome (k : String) :
    ∀ (l : List String) (s : Nat), k ∈ l →
      (lastFind k (deltaFrom s l)).isSome := by
  intro l
  induction l with
  | nil => intro s h; cases h
  | cons a tl ih =>
      intro s h
      by_cases hak : a = k
      · cases hfind : lastFind k (deltaFrom (s + 1) tl) <;>
          simp [deltaFrom, lastFind, hfind, hak]
      · have hmem : k ∈ tl := by
          rcases List.mem_cons.mp h with h' | h'
          · exact absurd h'.symm hak
          · exact h'
        obtain ⟨w, hw⟩ := Option.isSome_iff_exists.mp (ih (s + 1) hmem)
        simp [deltaFrom, lastFind, hw]

/-- The first registration of a name never comes after the last one, and
they coincide only when the name is registered exactly once. -/
theorem firstFind_le_lastFind (k : String) :
    ∀ (l : List String) (s i j : Nat),
      lookupAssoc k (deltaFrom s l) = some i →
      lastFind k (deltaFrom s l) = some j →
      i ≤ j ∧ (i = j → l.count k = 1) := by
  intro l
  induction l with
  | nil => intro s i j hi _; simp [deltaFrom, lookupAssoc] at hi
  | cons a tl ih =>
      intro s i j hi hj
      by_cases hak : a = k
      · have hi' : i = s := by
          simp [deltaFrom, lookupAssoc, hak] at hi
          omega
        cases hfind : lastFind k (deltaFrom (s + 1) tl) with
        | some w =>
            have hj' : j = w := by
              simp [deltaFrom, lastFind, hfind] at hj
              omega
            have hpos := lastFind_deltaFrom_pos k tl (s + 1) w hfind
            exact ⟨by omega, fun he => by omega⟩
        | none =>
            have hj' : j = s := by
              simp [deltaFrom, lastFind, hfind, hak] at hj
              omega
            refine ⟨by omega, fun _ => ?_⟩
            have hnone := lastFind_deltaFrom_none k tl (s + 1) hfind
            have hnotmem : k ∉ tl := by
              intro hmem
              obtain ⟨m, hm⟩ := List.mem_iff_get?.mp hmem
              exact hnone m hm
            simp [List.count_cons, hak, List.count_eq_zero.mpr hnotmem]
      · have hi' : lookupAssoc k (deltaFrom (s + 1) tl) = some i := by
          simpa [deltaFrom, lookupAssoc, hak] using hi
        have hj' : lastFind k (deltaFrom (s + 1) tl) = some j := by
          cases hfind : lastFind k (deltaFrom (s + 1) tl) with
          | some w =>
              have hw : w = j := by
                simp [deltaFrom, lastFind, hfind] at hj
                omega
              rw [hw]
          | none => simp [deltaFrom, lastFind, hfind, hak] at hj
        obtain ⟨hle, hcnt⟩ := ih (s + 1) i j hi' hj'
        refine ⟨hle, fun he => ?_⟩
        simp [List.count_cons, hak, hcnt he]

set_option maxRecDepth 4000 in
/-- C5: the bootstrap registers `Touch`, `Upsert` and `Where` twice each
(duplicates are tolerated, not rejected), and name lookup in the resulting
Interpreter State resolves to the registration occurring later in
iteration order: the resolved id `j` is strictly after the first
registration `i`, sits at position `j` of the registration sequence, and
no later position registers the name. -/
theorem duplicate_registration_last_wins :
    ∀ cfg : BuildCfg, ∀ name,
      name ∈ (["Touch", "Upsert", "Where"] : List String) →
      (bootstrap_registrations cfg).count name = 2 ∧
      (∃ i j,
        lookupAssoc name (deltaOf (bootstrap_registrations cfg)) = some i ∧
        lastFind name (deltaOf (bootstrap_registrations cfg)) = some j ∧
        i < j ∧
        (create_default_context_run cfg).find_decl name = some j ∧
        (bootstrap_registrations cfg).get? j = some name ∧
        (∀ m, j < m →
          (bootstrap_registrations cfg).get? m ≠ some name)) := by
  intro cfg name hname
  have hcount : (bootstrap_registrations cfg).count name = 2 := by
    obtain ⟨p, u, w, ps, wh⟩ := cfg
    have hname' : name = "Touch" ∨ name = "Upsert" ∨ name = "Where" := by
      simpa using hname
    rcases hname' with rfl | rfl | rfl <;>
      cases p <;> cases u <;> cases w <;> cases ps <;> cases wh <;> decide
  refine ⟨hcount, ?_⟩
  have hmem : name ∈ bootstrap_registrations cfg := by
    have : 0 < (bootstrap_registrations cfg).count name := by omega
    exact List.count_pos_iff.mp this
  obtain ⟨i, hi⟩ := Option.isSome_iff_exists.mp
    (lookupAssoc_deltaFrom_isSome name (bootstrap_registrations cfg) 0 hmem)
  obtain ⟨j, hj⟩ := Option.isSome_iff_exists.mp
    (lastFind_deltaFrom_isSome name (bootstrap_registrations cfg) 0 hmem)
  obtain ⟨hle, hone⟩ :=
    firstFind_le_lastFind name (bootstrap_registrations cfg) 0 i j hi hj
  have hij : i < j := by
    rcases Nat.lt_or_ge i j with h | h
    · exact h
    · have he : i = j := by omega
      have := hone he
      omega
  have hpos := lastFind_deltaFrom_pos name (bootstrap_registrations cfg)
    0 j hj
  refine ⟨i, j, hi, hj, hij, ?_, ?_, ?_⟩
  · rw [find_decl_run_eq_lastFind]
    exact hj
  · simpa using hpos.2.1
  · intro m hm
    exact hpos.2.2 m (by simpa using hm)

/-- Witness for C5: the duplicate facts instantiated on the sample
configuration for the name `Touch`. -/
theorem duplicate_registration_last_wins_witness :
    (bootstrap_registrations cfgLinux).count "Touch" = 2 ∧
    (∃ i j,
      lookupAssoc "Touch" (deltaOf (bootstrap_registrations cfgLinux)) =
        some i ∧
      lastFind "Touch" (deltaOf (bootstrap_registrations cfgLinux)) =
        some j ∧
      i < j ∧
      (create_default_context_run cfgLinux).find_decl "Touch" = some j ∧
      (bootstrap_registrations cfgLinux).get? j = some "Touch" ∧
      (∀ m, j < m →
        (bootstrap_registrations cfgLinux).get? m ≠ some "Touch")) :=
  duplicate_registration_last_wins cfgLinux "Touch" (by decide)

/-- C6: `create_default_context` always returns an Interpreter State; a
bootstrap merge failure is reported and the (possibly partially
populated) state of the merge attempt is still returned — whereas the same
fault inside `eval_source` aborts that evaluation with failure, making the
bootstrap the sole logged-and-continue case. -/
theorem bootstrap_merge_failure_nonfatal (cfg : BuildCfg)
    (mergeTry : EngineState → Delta → EngineState × Option NuError) :
    (create_default_context cfg mergeTry =
      (mergeTry EngineState.new
        (deltaOf (bootstrap_registrations cfg))).1) ∧
    (∀ (ext : Externals) (es es₁ : EngineState) (stack : Stack)
        (src : List Nat) (fname : String) (input : PipelineData)
        (ar : Bool) (e : NuError),
      (ext.parse es fname src).2.1 = [] →
      ext.mergeTry es (ext.parse es fname src).2.2 = (es₁, some e) →
      eval_source ext es stack src fname input ar =
        (false, es₁, set_last_exit_code stack 1)) := by
  refine ⟨rfl, ?_⟩
  intro ext es es₁ stack src fname input ar e hparse hmerge
  simp [eval_source, hparse, hmerge]

/-- Witness for C6: a concrete always-faulting merge still yields an
Interpreter State at bootstrap, while the same fault makes a concrete
evaluation fail. -/
theorem bootstrap_merge_failure_nonfatal_witness :
    create_default_context cfgLinux mergeFail = EngineState.new ∧
    eval_source extMergeFail EngineState.new Stack.new [] "application"
        PipelineData.empty true =
      (false, EngineState.new, set_last_exit_code Stack.new 1) :=
  ⟨(bootstrap_merge_failure_nonfatal cfgLinux mergeFail).1.trans rfl,
   (bootstrap_merge_failure_nonfatal cfgLinux mergeFail).2 extMergeFail
      EngineState.new EngineState.new Stack.new [] "application"
      PipelineData.empty true 9 rfl rfl⟩

end NuApp
